import Mathlib

/-!
Verification of the FireProtector alert-manager core: the threshold
evaluator, the alert lifecycle manager (create-or-update within a rolling
one-hour window), the status-update entrypoint, and the notification
deduplicator variants of `GlobalAlertListener`.

The definitions below are shallow embeddings of the TypeScript source in
`supabase/functions/alert-manager/index.ts` and
`src/components/GlobalAlertListener.tsx` (plus the alternate listener
variant that keeps a map of toast dismiss handles). Timestamps are
modelled as integer milliseconds; JavaScript strict equality on the
heterogeneous `flame` field is modelled with a small JS primitive value
type.
-/

namespace FireProtector

/-- A JavaScript primitive value, as far as the sensor payload needs:
the `flame` field arrives as a string, boolean or number, and the code
compares it with `=== 'FLAME'` (strict equality, never coercing). -/
inductive JsPrim where
  | str (s : String)
  | num (q : ℚ)
  | jsBool (b : Bool)
  | jsNull
deriving DecidableEq, Repr

/-- One sensor reading from the telemetry service
(`{temperature, humidity, flame, gas, pir, timestamp}`). -/
structure SensorReading where
  temperature : ℚ
  humidity : ℚ
  flame : JsPrim
  gas : ℚ
  pir : JsPrim
deriving DecidableEq, Repr

/-- The (alert_type, severity) pair produced by a threshold evaluation. -/
structure Classification where
  alert_type : String
  severity : String
deriving DecidableEq, Repr

/-- Threshold evaluator from `alert-manager/index.ts` lines 62-86:
flame strictly equal to the string "FLAME" wins first, then gas level
above 400, then temperature above 35; otherwise no classification. -/
def evaluate (sensors : SensorReading) : Option Classification :=
  if sensors.flame = JsPrim.str "FLAME" then
    some { alert_type := "fire", severity := "critical" }
  else if sensors.gas > 400 then
    some { alert_type := "gas_leak", severity := "critical" }
  else if sensors.temperature > 35 then
    some { alert_type := "temperature", severity := "critical" }
  else
    none

/-- A persisted alert row (`alerts` table). Timestamps are integer
milliseconds since the epoch; ids are strings (uuids). -/
structure AlertRecord where
  id : String
  location_id : String
  alert_type : String
  severity : String
  status : String
  sensor_values : SensorReading
  timestamp : Int
  resolved_at : Option Int
  resolved_by : Option String
deriving DecidableEq, Repr

/-- One hour in milliseconds (`60 * 60 * 1000` in the source). -/
def oneHourMs : Int := 60 * 60 * 1000

/-- The lookup in `alert-manager/index.ts` lines 91-99: among the rows
with the given location_id and timestamp at least `now - oneHourMs`
(the query uses `gte`), pick the one with the greatest timestamp
(`order timestamp descending, limit 1`). -/
def findRecent (store : List AlertRecord) (now : Int) (loc : String) :
    Option AlertRecord :=
  (store.filter (fun r => r.location_id == loc && now - oneHourMs ≤ r.timestamp)).foldl
    (fun best r =>
      match best with
      | none => some r
      | some b => if r.timestamp > b.timestamp then some r else some b)
    none

/-- The field update applied to an existing alert
(`alert-manager/index.ts` lines 103-113): alert_type, severity,
sensor_values and timestamp are overwritten, everything else kept. -/
def updateFields (c : Classification) (sensors : SensorReading) (now : Int)
    (r : AlertRecord) : AlertRecord :=
  { r with
    alert_type := c.alert_type
    severity := c.severity
    sensor_values := sensors
    timestamp := now }

/-- The freshly inserted alert (`alert-manager/index.ts` lines 127-138). -/
def mkAlert (fid loc : String) (c : Classification) (sensors : SensorReading)
    (now : Int) : AlertRecord :=
  { id := fid
    location_id := loc
    alert_type := c.alert_type
    severity := c.severity
    status := "active"
    sensor_values := sensors
    timestamp := now
    resolved_at := none
    resolved_by := none }

/-- Result of one lifecycle step: a row was created, a row was updated,
or nothing happened (no classification). -/
inductive ProcessResult where
  | created (a : AlertRecord)
  | updated (a : AlertRecord)
  | noneRes
deriving DecidableEq, Repr

/-- The alert lifecycle manager (`alert-manager/index.ts` lines 88-157):
with no classification it is a no-op; otherwise it updates the most
recent alert of the location inside the one-hour window when one exists
(matched by id, as the SQL update does), and inserts a fresh active row
when none does. Returns the new store contents and what happened. -/
def process (store : List AlertRecord) (now : Int) (loc : String)
    (cls : Option Classification) (sensors : SensorReading) (fid : String) :
    List AlertRecord × ProcessResult :=
  match cls with
  | none => (store, ProcessResult.noneRes)
  | some c =>
    match findRecent store now loc with
    | some existing =>
      (store.map (fun r => if r.id = existing.id then updateFields c sensors now r else r),
       ProcessResult.updated (updateFields c sensors now existing))
    | none =>
      (store ++ [mkAlert fid loc c sensors now],
       ProcessResult.created (mkAlert fid loc c sensors now))

/-- Number of alert rows stored for a location. -/
def countLoc (store : List AlertRecord) (loc : String) : Nat :=
  store.countP (fun r => r.location_id == loc)

/-- The `update` action (`alert-manager/index.ts` lines 160-177): the
row gets the new status, and resolved_at / resolved_by are set to the
current time and the caller exactly when the new status differs from
the string "active", and nulled otherwise. -/
def updateAction (r : AlertRecord) (newStatus : String) (now : Int)
    (userId : String) : AlertRecord :=
  { r with
    status := newStatus
    resolved_at := if newStatus ≠ "active" then some now else none
    resolved_by := if newStatus ≠ "active" then some userId else none }

/-- The body returned by the thingspeak-service call:
`{success, data?}`. -/
structure TelemetryBody where
  success : Bool
  data : Option SensorReading
deriving DecidableEq, Repr

/-- The JSON body of an `evaluate` response, mirroring the fields the
source puts in it across its branches. -/
structure EvalResponse where
  success : Bool
  message : Option String
  alert : Option AlertRecord
  created : Bool
  updated : Bool
  errorMsg : Option String
deriving DecidableEq, Repr

/-- Response `{success: true, message: 'No sensor data available'}`. -/
def noDataResponse : EvalResponse :=
  { success := true
    message := some "No sensor data available"
    alert := none
    created := false
    updated := false
    errorMsg := none }

/-- Response `{success: true, message: 'All sensors within normal range'}`. -/
def nominalResponse : EvalResponse :=
  { success := true
    message := some "All sensors within normal range"
    alert := none
    created := false
    updated := false
    errorMsg := none }

/-- The `evaluate` action of the serve handler
(`alert-manager/index.ts` lines 31-157): when the telemetry invocation
errored, or its body is missing, or reports `success: false`, or
carries no `data`, answer the soft no-data response and leave the store
alone; otherwise run the threshold evaluator and the lifecycle step. -/
def serveEvaluate (sensorError : Bool) (body : Option TelemetryBody)
    (store : List AlertRecord) (now : Int) (loc : String) (fid : String) :
    List AlertRecord × EvalResponse :=
  let noData := sensorError ||
    (match body with
     | none => true
     | some b => !b.success || b.data.isNone)
  if noData then
    (store, noDataResponse)
  else
    match body with
    | some { success := _, data := some sensors } =>
      match evaluate sensors with
      | some c =>
        match process store now loc (some c) sensors fid with
        | (store1, ProcessResult.created a) =>
          (store1, { success := true, message := none, alert := some a,
                     created := true, updated := false, errorMsg := none })
        | (store1, ProcessResult.updated a) =>
          (store1, { success := true, message := none, alert := some a,
                     created := false, updated := true, errorMsg := none })
        | (store1, ProcessResult.noneRes) => (store1, nominalResponse)
      | none => (store, nominalResponse)
    | _ => (store, noDataResponse)

/-- Observable presentation-layer effects of one deduplicator step:
popping a toast for a key, dismissing the toast of a key, and playing
the one-shot audio cue. -/
inductive Effect where
  | toastShow (key : String)
  | toastDismiss (key : String)
  | audioPlay
deriving DecidableEq, Repr

/-- Number of toast-show effects in a list. -/
def countShows (es : List Effect) : Nat :=
  es.countP (fun e => match e with | Effect.toastShow _ => true | _ => false)

/-- Number of audio triggers in a list. -/
def countAudio (es : List Effect) : Nat :=
  es.countP (fun e => match e with | Effect.audioPlay => true | _ => false)

/-- The fields of a change-feed alert row that the listeners branch on. -/
structure AlertRow where
  id : String
  status : String
  alert_type : String
  severity : String
  location_id : String
deriving DecidableEq, Repr

/-- `handleAlert` of `src/components/GlobalAlertListener.tsx` (lines
12-93): an update event only removes solved/unsolved keys from the
shown set and never notifies; an insert event is dropped when the key
was already shown or the status is solved/unsolved, and otherwise adds
the key, pops one toast and plays the audio cue once. The shown set is
a JS `Set`, modelled as a `Finset`. -/
def handleAlertA (shown : Finset String) (a : AlertRow) (isUpdate : Bool) :
    Finset String × List Effect :=
  if isUpdate then
    if a.status = "solved" ∨ a.status = "unsolved" then
      (shown.erase a.id, [])
    else
      (shown, [])
  else if a.id ∈ shown then
    (shown, [])
  else if a.status = "solved" ∨ a.status = "unsolved" then
    (shown, [])
  else
    (insert a.id shown, [Effect.toastShow a.id, Effect.audioPlay])

/-- Local state of the listener variant that keeps, besides the shown
set, a map from alert id to the dismiss handle of its live toast; only
the key set of that map matters here. -/
structure DedupStateB where
  shown : Finset String
  toasts : Finset String
deriving DecidableEq

/-- A status the dismiss-capable listener treats as closed. -/
def closedStatusB (st : String) : Bool :=
  st == "resolved" || st == "unsolved" || st == "false_alarm"

/-- `handleAlert` of the dismiss-capable `GlobalAlertListener` variant:
it receives every insert and update event through one handler. A closed
status dismisses the toast of the key when one is live (a no-op
otherwise) and removes the key from both the shown set and the handle
map; a status other than active / in_queue is ignored; an already shown
key is kept as is (never re-popped); a new active / in_queue key is
added, shown once and the audio cue played once. -/
def handleAlertB (s : DedupStateB) (a : AlertRow) : DedupStateB × List Effect :=
  if closedStatusB a.status then
    ({ shown := s.shown.erase a.id, toasts := s.toasts.erase a.id },
     if a.id ∈ s.toasts then [Effect.toastDismiss a.id] else [])
  else if a.status ≠ "active" ∧ a.status ≠ "in_queue" then
    (s, [])
  else if a.id ∈ s.shown then
    (s, [])
  else
    ({ shown := insert a.id s.shown, toasts := insert a.id s.toasts },
     [Effect.toastShow a.id, Effect.audioPlay])

/-- C1: the evaluate action applies a fixed-priority classification
chain: a flame detection returns fire/critical regardless of gas and
temperature; otherwise gas above 400 returns gas_leak/critical;
otherwise temperature above 35 returns temperature/critical; otherwise
there is no classification. -/
theorem evaluate_priority_chain (r : SensorReading) :
    (r.flame = JsPrim.str "FLAME" →
      evaluate r = some { alert_type := "fire", severity := "critical" }) ∧
    (r.flame ≠ JsPrim.str "FLAME" → r.gas > 400 →
      evaluate r = some { alert_type := "gas_leak", severity := "critical" }) ∧
    (r.flame ≠ JsPrim.str "FLAME" → r.gas ≤ 400 → r.temperature > 35 →
      evaluate r = some { alert_type := "temperature", severity := "critical" }) ∧
    (r.flame ≠ JsPrim.str "FLAME" → r.gas ≤ 400 → r.temperature ≤ 35 →
      evaluate r = none) := by
  refine ⟨fun h1 => ?_, fun h1 h2 => ?_, fun h1 h2 h3 => ?_, fun h1 h2 h3 => ?_⟩
  · simp [evaluate, h1]
  · simp [evaluate, h1, h2]
  · simp [evaluate, h1, not_lt.mpr h2, h3]
  · simp [evaluate, h1, not_lt.mpr h2, not_lt.mpr h3]

/-- Witness for C1 at concrete readings: a flame reading with high gas
classifies as fire, and a non-flame reading with gas 500 as gas_leak. -/
theorem evaluate_priority_chain_witness :
    evaluate { temperature := 20, humidity := 50, flame := JsPrim.str "FLAME",
               gas := 500, pir := JsPrim.str "1" }
        = some { alert_type := "fire", severity := "critical" } ∧
    evaluate { temperature := 20, humidity := 50, flame := JsPrim.str "NOFLAME",
               gas := 500, pir := JsPrim.str "1" }
        = some { alert_type := "gas_leak", severity := "critical" } :=
  ⟨(evaluate_priority_chain _).1 (by decide),
   (evaluate_priority_chain _).2.1 (by decide) (by norm_num)⟩

/-- C7: with no flame detection, gas not above 400 and temperature
exactly 35, evaluation yields no classification — the threshold
comparison is strict. -/
theorem evaluate_strict_boundary (r : SensorReading)
    (h1 : r.flame ≠ JsPrim.str "FLAME") (h2 : r.gas ≤ 400)
    (h3 : r.temperature = 35) : evaluate r = none := by
  simp [evaluate, h1, not_lt.mpr h2, h3]

/-- Witness for C7 at the concrete boundary reading with temperature
exactly 35 and gas exactly 400. -/
theorem evaluate_strict_boundary_witness :
    evaluate { temperature := 35, humidity := 50, flame := JsPrim.str "NOFLAME",
               gas := 400, pir := JsPrim.str "1" } = none :=
  evaluate_strict_boundary _ (by decide) (by norm_num) (by norm_num)

/-- C9: every classification the evaluator produces carries the
severity string "critical"; no evaluation path assigns any other
severity. -/
theorem evaluate_severity_always_critical (r : SensorReading)
    (c : Classification) (h : evaluate r = some c) :
    c.severity = "critical" := by
  unfold evaluate at h
  split_ifs at h with h1 h2 h3
  · injection h with h4; rw [← h4]
  · injection h with h4; rw [← h4]
  · injection h with h4; rw [← h4]

/-- Witness for C9 at a concrete flame reading. -/
theorem evaluate_severity_always_critical_witness :
    evaluate { temperature := 20, humidity := 50, flame := JsPrim.str "FLAME",
               gas := 50, pir := JsPrim.str "1" }
        = some { alert_type := "fire", severity := "critical" } ∧
    Classification.severity { alert_type := "fire", severity := "critical" }
        = "critical" :=
  ⟨by decide,
   evaluate_severity_always_critical
     { temperature := 20, humidity := 50, flame := JsPrim.str "FLAME",
       gas := 50, pir := JsPrim.str "1" } _ (by decide)⟩

/-- C10: fire is classified exactly when the flame field is the string
"FLAME"; any other value — another string, a boolean, a number — fails
the strict comparison, never yields a fire classification, and
evaluation falls through to the gas and temperature checks. -/
theorem evaluate_fire_iff_flame_string (r : SensorReading) :
    (evaluate r = some { alert_type := "fire", severity := "critical" } ↔
      r.flame = JsPrim.str "FLAME") ∧
    (r.flame ≠ JsPrim.str "FLAME" → ∀ c, evaluate r = some c →
      c.alert_type ≠ "fire") ∧
    (r.flame ≠ JsPrim.str "FLAME" → r.gas > 400 →
      evaluate r = some { alert_type := "gas_leak", severity := "critical" }) ∧
    (r.flame ≠ JsPrim.str "FLAME" → r.gas ≤ 400 → r.temperature > 35 →
      evaluate r = some { alert_type := "temperature", severity := "critical" }) := by
  refine ⟨⟨fun h => ?_, fun h => by simp [evaluate, h]⟩,
          fun h1 c hc => ?_, fun h1 h2 => ?_, fun h1 h2 h3 => ?_⟩
  · by_contra hf
    unfold evaluate at h
    rw [if_neg hf] at h
    split_ifs at h
    · injection h with h4
      exact absurd (congrArg Classification.alert_type h4) (by decide)
    · injection h with h4
      exact absurd (congrArg Classification.alert_type h4) (by decide)
  · unfold evaluate at hc
    rw [if_neg h1] at hc
    split_ifs at hc
    · injection hc with h4; rw [← h4]; decide
    · injection hc with h4; rw [← h4]; decide
  · simp [evaluate, h1, h2]
  · simp [evaluate, h1, not_lt.mpr h2, h3]

/-- Witness for C10: a boolean-true flame value does not classify as
fire; with gas 500 it falls through to the gas_leak branch. -/
theorem evaluate_fire_iff_flame_string_witness :
    evaluate { temperature := 20, humidity := 50, flame := JsPrim.jsBool true,
               gas := 500, pir := JsPrim.str "1" }
        = some { alert_type := "gas_leak", severity := "critical" } :=
  (evaluate_fire_iff_flame_string _).2.2.1 (by decide) (by norm_num)

/-- C2: with a classification in hand and no alert of the location
inside the one-hour window, the lifecycle step appends exactly one new
row — active, stamped with the current time, carrying the
classification — and reports created. -/
theorem process_creates_when_no_recent (store : List AlertRecord) (now : Int)
    (loc : String) (c : Classification) (sensors : SensorReading) (fid : String)
    (h : findRecent store now loc = none) :
    process store now loc (some c) sensors fid
      = (store ++ [mkAlert fid loc c sensors now],
         ProcessResult.created (mkAlert fid loc c sensors now)) ∧
    (mkAlert fid loc c sensors now).status = "active" ∧
    (mkAlert fid loc c sensors now).timestamp = now ∧
    (mkAlert fid loc c sensors now).alert_type = c.alert_type ∧
    (mkAlert fid loc c sensors now).severity = c.severity ∧
    (mkAlert fid loc c sensors now).location_id = loc ∧
    countLoc (store ++ [mkAlert fid loc c sensors now]) loc
      = countLoc store loc + 1 := by
  refine ⟨by simp [process, h], rfl, rfl, rfl, rfl, rfl, ?_⟩
  simp [countLoc, mkAlert, List.countP_append]

/-- A sample classified reading used by concrete witnesses. -/
def sampleReading : SensorReading :=
  { temperature := 20, humidity := 50, flame := JsPrim.str "FLAME",
    gas := 500, pir := JsPrim.str "1" }

/-- The fire/critical classification, used by concrete witnesses. -/
def clsFire : Classification := { alert_type := "fire", severity := "critical" }

/-- A store holding one alert of the location stamped 61 minutes before
the witness time 4000000 ms — just outside the one-hour window. -/
def staleStore : List AlertRecord :=
  [{ id := "a1", location_id := "loc1", alert_type := "fire",
     severity := "critical", status := "resolved",
     sensor_values := sampleReading, timestamp := 340000,
     resolved_at := some 350000, resolved_by := some "u1" }]

/-- Witness for C2: with only a 61-minute-old record present, the
window lookup is empty and the step appends one fresh active row. -/
theorem process_creates_when_no_recent_witness :
    findRecent staleStore 4000000 "loc1" = none ∧
    (process staleStore 4000000 "loc1" (some clsFire) sampleReading "a2"
        = (staleStore ++ [mkAlert "a2" "loc1" clsFire sampleReading 4000000],
           ProcessResult.created (mkAlert "a2" "loc1" clsFire sampleReading 4000000)) ∧
      (mkAlert "a2" "loc1" clsFire sampleReading 4000000).status = "active" ∧
      (mkAlert "a2" "loc1" clsFire sampleReading 4000000).timestamp = 4000000 ∧
      (mkAlert "a2" "loc1" clsFire sampleReading 4000000).alert_type
        = clsFire.alert_type ∧
      (mkAlert "a2" "loc1" clsFire sampleReading 4000000).severity
        = clsFire.severity ∧
      (mkAlert "a2" "loc1" clsFire sampleReading 4000000).location_id = "loc1" ∧
      countLoc (staleStore ++ [mkAlert "a2" "loc1" clsFire sampleReading 4000000])
          "loc1"
        = countLoc staleStore "loc1" + 1) :=
  ⟨by decide,
   process_creates_when_no_recent staleStore 4000000 "loc1" clsFire
     sampleReading "a2" (by decide)⟩

/-- C3: with a classification and an alert of the location inside the
one-hour window — whatever its status — the lifecycle step rewrites
that row's alert_type, severity, sensor_values and timestamp in place,
reports updated, adds no second row, and leaves status, id and
location_id untouched. -/
theorem process_updates_within_window (store : List AlertRecord) (now : Int)
    (loc : String) (c : Classification) (sensors : SensorReading) (fid : String)
    (rec : AlertRecord) (h : findRecent store now loc = some rec) :
    process store now loc (some c) sensors fid
      = (store.map (fun r =>
            if r.id = rec.id then updateFields c sensors now r else r),
         ProcessResult.updated (updateFields c sensors now rec)) ∧
    (updateFields c sensors now rec).alert_type = c.alert_type ∧
    (updateFields c sensors now rec).severity = c.severity ∧
    (updateFields c sensors now rec).sensor_values = sensors ∧
    (updateFields c sensors now rec).timestamp = now ∧
    (updateFields c sensors now rec).status = rec.status ∧
    (updateFields c sensors now rec).id = rec.id ∧
    (updateFields c sensors now rec).location_id = rec.location_id ∧
    (process store now loc (some c) sensors fid).1.length = store.length ∧
    countLoc (process store now loc (some c) sensors fid).1 loc
      = countLoc store loc := by
  have hp : process store now loc (some c) sensors fid
      = (store.map (fun r =>
            if r.id = rec.id then updateFields c sensors now r else r),
         ProcessResult.updated (updateFields c sensors now rec)) := by
    simp [process, h]
  refine ⟨hp, rfl, rfl, rfl, rfl, rfl, rfl, rfl, ?_, ?_⟩
  · rw [hp]; simp
  · rw [hp]
    simp only [countLoc]
    rw [List.countP_map]
    apply List.countP_congr
    intro r _
    by_cases hid : r.id = rec.id <;> simp [hid, updateFields, Function.comp]

/-- A store holding one resolved alert of the location stamped 10
minutes before the witness time 4000000 ms — inside the window. -/
def recentStore : List AlertRecord :=
  [{ id := "a1", location_id := "loc1", alert_type := "fire",
     severity := "critical", status := "resolved",
     sensor_values := sampleReading, timestamp := 3400000,
     resolved_at := some 3500000, resolved_by := some "u1" }]

/-- The single record of `recentStore`. -/
def recentRec : AlertRecord :=
  { id := "a1", location_id := "loc1", alert_type := "fire",
    severity := "critical", status := "resolved",
    sensor_values := sampleReading, timestamp := 3400000,
    resolved_at := some 3500000, resolved_by := some "u1" }

/-- Witness for C3: a 10-minute-old record — even a resolved one — is
found by the window lookup and is updated in place. -/
theorem process_updates_within_window_witness :
    findRecent recentStore 4000000 "loc1" = some recentRec ∧
    (process recentStore 4000000 "loc1" (some clsFire) sampleReading "a2"
        = (recentStore.map (fun r =>
              if r.id = recentRec.id then
                updateFields clsFire sampleReading 4000000 r
              else r),
           ProcessResult.updated
             (updateFields clsFire sampleReading 4000000 recentRec)) ∧
      (updateFields clsFire sampleReading 4000000 recentRec).alert_type
        = clsFire.alert_type ∧
      (updateFields clsFire sampleReading 4000000 recentRec).severity
        = clsFire.severity ∧
      (updateFields clsFire sampleReading 4000000 recentRec).sensor_values
        = sampleReading ∧
      (updateFields clsFire sampleReading 4000000 recentRec).timestamp
        = 4000000 ∧
      (updateFields clsFire sampleReading 4000000 recentRec).status
        = recentRec.status ∧
      (updateFields clsFire sampleReading 4000000 recentRec).id
        = recentRec.id ∧
      (updateFields clsFire sampleReading 4000000 recentRec).location_id
        = recentRec.location_id ∧
      (process recentStore 4000000 "loc1"
          (some clsFire) sampleReading "a2").1.length = recentStore.length ∧
      countLoc (process recentStore 4000000 "loc1"
          (some clsFire) sampleReading "a2").1 "loc1"
        = countLoc recentStore "loc1") :=
  ⟨by decide,
   process_updates_within_window recentStore 4000000 "loc1" clsFire
     sampleReading "a2" recentRec (by decide)⟩

/-- An active alert row used to exercise the update action. -/
def activeRec : AlertRecord :=
  { id := "a9", location_id := "loc1", alert_type := "fire",
    severity := "critical", status := "active",
    sensor_values := sampleReading, timestamp := 3400000,
    resolved_at := none, resolved_by := none }

/-- Counterexample to C4: moving an active alert to the still-open
status in_queue nevertheless stamps resolved_at and resolved_by — the
code keys the decision on the new status differing from "active", not
on leaving the open statuses. -/
theorem updateAction_in_queue_sets_resolved :
    (updateAction activeRec "in_queue" 4000000 "u7").resolved_at
        = some 4000000 ∧
    (updateAction activeRec "in_queue" 4000000 "u7").resolved_by
        = some "u7" := by
  decide

/-- C4 amended: the update entrypoint decides resolved_at and
resolved_by solely from the new status — they are stamped with the
current time and the caller exactly when the new status is not
"active" (in_queue included), and nulled when it is "active"; the
status itself always becomes the requested one. -/
theorem updateAction_resolved_iff_not_active (r : AlertRecord)
    (s : String) (now : Int) (uid : String) :
    ((updateAction r s now uid).resolved_at = none ↔ s = "active") ∧
    ((updateAction r s now uid).resolved_by = none ↔ s = "active") ∧
    (s ≠ "active" → (updateAction r s now uid).resolved_at = some now ∧
      (updateAction r s now uid).resolved_by = some uid) ∧
    (updateAction r s now uid).status = s := by
  by_cases h : s = "active" <;> simp [updateAction, h]

/-- Witness for the amended C4: resolving an active alert stamps both
fields, and the new status is taken verbatim. -/
theorem updateAction_resolved_iff_not_active_witness :
    ("resolved" : String) ≠ "active" ∧
    ((updateAction activeRec "resolved" 4000000 "u7").resolved_at
        = some 4000000 ∧
      (updateAction activeRec "resolved" 4000000 "u7").resolved_by
        = some "u7") :=
  ⟨by decide,
   (updateAction_resolved_iff_not_active activeRec "resolved" 4000000
       "u7").2.2.1 (by decide)⟩

/-- C5: on any event — insert or update alike, the handler does not
distinguish them — whose record carries a closed status, the
dismiss-capable listener removes the key from the shown set and the
handle map unconditionally, emits the dismiss for the key exactly when
a toast is live, is a pure no-op on a key it never showed, and never
notifies. -/
theorem handleAlertB_closed_dismisses (s : DedupStateB) (a : AlertRow)
    (h : closedStatusB a.status = true) :
    (handleAlertB s a).1.shown = s.shown.erase a.id ∧
    (handleAlertB s a).1.toasts = s.toasts.erase a.id ∧
    a.id ∉ (handleAlertB s a).1.shown ∧
    a.id ∉ (handleAlertB s a).1.toasts ∧
    (a.id ∈ s.toasts → (handleAlertB s a).2 = [Effect.toastDismiss a.id]) ∧
    (a.id ∉ s.toasts → (handleAlertB s a).2 = [] ∧
      (handleAlertB s a).1.toasts = s.toasts) ∧
    (a.id ∉ s.shown → (handleAlertB s a).1.shown = s.shown) ∧
    countShows (handleAlertB s a).2 = 0 ∧
    countAudio (handleAlertB s a).2 = 0 := by
  have hb : handleAlertB s a
      = ({ shown := s.shown.erase a.id, toasts := s.toasts.erase a.id },
         if a.id ∈ s.toasts then [Effect.toastDismiss a.id] else []) := by
    simp [handleAlertB, h]
  rw [hb]
  refine ⟨rfl, rfl, Finset.not_mem_erase _ _, Finset.not_mem_erase _ _,
    fun hm => by simp [hm],
    fun hm => ⟨by simp [hm], Finset.erase_eq_self.mpr hm⟩,
    fun hm => Finset.erase_eq_self.mpr hm, ?_, ?_⟩
  · by_cases hm : a.id ∈ s.toasts <;> simp [hm, countShows]
  · by_cases hm : a.id ∈ s.toasts <;> simp [hm, countAudio]

/-- A change-feed row carrying the closed status resolved. -/
def resolvedRow : AlertRow :=
  { id := "a1", status := "resolved", alert_type := "fire",
    severity := "critical", location_id := "loc1" }

/-- Witness for C5: a resolved event on a fresh listener state — show
was never called for the key — is a clean no-op, with no dismiss
emitted and no error. -/
theorem handleAlertB_closed_dismisses_witness :
    closedStatusB resolvedRow.status = true ∧
    (handleAlertB { shown := ∅, toasts := ∅ } resolvedRow).1.shown
        = Finset.erase ∅ resolvedRow.id ∧
    (handleAlertB { shown := ∅, toasts := ∅ } resolvedRow).1.toasts
        = Finset.erase ∅ resolvedRow.id ∧
    (handleAlertB { shown := ∅, toasts := ∅ } resolvedRow).2 = [] ∧
    countShows (handleAlertB { shown := ∅, toasts := ∅ } resolvedRow).2 = 0 :=
  ⟨by decide,
   (handleAlertB_closed_dismisses { shown := ∅, toasts := ∅ } resolvedRow
       (by decide)).1,
   (handleAlertB_closed_dismisses { shown := ∅, toasts := ∅ } resolvedRow
       (by decide)).2.1,
   ((handleAlertB_closed_dismisses { shown := ∅, toasts := ∅ } resolvedRow
       (by decide)).2.2.2.2.2.1 (by decide)).1,
   (handleAlertB_closed_dismisses { shown := ∅, toasts := ∅ } resolvedRow
       (by decide)).2.2.2.2.2.2.2.1⟩

/-- A change-feed row carrying the closed status solved, as the named
listener spells it. -/
def solvedRow : AlertRow :=
  { id := "a1", status := "solved", alert_type := "fire",
    severity := "critical", location_id := "loc1" }

/-- Counterexample to C6: an insert event whose record already carries
a closed status never notifies, so delivering it twice produces zero
show calls and zero audio triggers — not exactly one. -/
theorem handleAlertA_closed_insert_no_show :
    countShows ((handleAlertA ∅ solvedRow false).2
        ++ (handleAlertA (handleAlertA ∅ solvedRow false).1
              solvedRow false).2) = 0 ∧
    countAudio ((handleAlertA ∅ solvedRow false).2
        ++ (handleAlertA (handleAlertA ∅ solvedRow false).1
              solvedRow false).2) = 0 := by
  decide

/-- C6 amended: for an insert event whose status is not closed (not
solved / unsolved) and whose key is not yet shown, delivering the event
twice yields exactly one show call and exactly one audio trigger — the
first delivery pops the toast and plays the cue, the second is a
no-op; indeed any delivery whose key already sits in the shown set
leaves the state unchanged and emits nothing. -/
theorem handleAlertA_insert_dedup (shown : Finset String) (a : AlertRow)
    (h1 : a.status ≠ "solved") (h2 : a.status ≠ "unsolved")
    (h3 : a.id ∉ shown) :
    handleAlertA shown a false
      = (insert a.id shown, [Effect.toastShow a.id, Effect.audioPlay]) ∧
    handleAlertA (insert a.id shown) a false = (insert a.id shown, []) ∧
    countShows ((handleAlertA shown a false).2
        ++ (handleAlertA (handleAlertA shown a false).1 a false).2) = 1 ∧
    countAudio ((handleAlertA shown a false).2
        ++ (handleAlertA (handleAlertA shown a false).1 a false).2) = 1 ∧
    (∀ s2 : Finset String, a.id ∈ s2 → handleAlertA s2 a false = (s2, [])) := by
  have hfirst : handleAlertA shown a false
      = (insert a.id shown, [Effect.toastShow a.id, Effect.audioPlay]) := by
    simp [handleAlertA, h1, h2, h3]
  have hsec : ∀ s2 : Finset String, a.id ∈ s2 →
      handleAlertA s2 a false = (s2, []) := by
    intro s2 hm
    simp [handleAlertA, hm]
  have hsecond := hsec (insert a.id shown) (Finset.mem_insert_self _ _)
  refine ⟨hfirst, hsecond, ?_, ?_, hsec⟩
  · rw [hfirst, hsecond]
    rfl
  · rw [hfirst, hsecond]
    rfl

/-- A change-feed row for a fresh active alert. -/
def activeRow : AlertRow :=
  { id := "a1", status := "active", alert_type := "fire",
    severity := "critical", location_id := "loc1" }

/-- Witness for the amended C6: delivering the insert of an active
alert twice from an empty shown set pops exactly one toast and plays
the cue exactly once. -/
theorem handleAlertA_insert_dedup_witness :
    activeRow.status ≠ "solved" ∧ activeRow.status ≠ "unsolved" ∧
    activeRow.id ∉ (∅ : Finset String) ∧
    handleAlertA ∅ activeRow false
      = (insert activeRow.id ∅,
         [Effect.toastShow activeRow.id, Effect.audioPlay]) ∧
    handleAlertA (insert activeRow.id ∅) activeRow false
      = (insert activeRow.id ∅, []) ∧
    countShows ((handleAlertA ∅ activeRow false).2
        ++ (handleAlertA (handleAlertA ∅ activeRow false).1
              activeRow false).2) = 1 ∧
    countAudio ((handleAlertA ∅ activeRow false).2
        ++ (handleAlertA (handleAlertA ∅ activeRow false).1
              activeRow false).2) = 1 :=
  ⟨by decide, by decide, by decide,
   (handleAlertA_insert_dedup ∅ activeRow (by decide) (by decide)
       (by decide)).1,
   (handleAlertA_insert_dedup ∅ activeRow (by decide) (by decide)
       (by decide)).2.1,
   (handleAlertA_insert_dedup ∅ activeRow (by decide) (by decide)
       (by decide)).2.2.1,
   (handleAlertA_insert_dedup ∅ activeRow (by decide) (by decide)
       (by decide)).2.2.2.1⟩

/-- C8: when the telemetry invocation errors, or the body is missing,
or reports failure, or carries no data, the evaluate action answers a
success response carrying the explanatory message, leaves the alert
store untouched — nothing created, nothing updated — and surfaces no
error. -/
theorem serveEvaluate_no_data (sensorError : Bool) (body : Option TelemetryBody)
    (store : List AlertRecord) (now : Int) (loc : String) (fid : String)
    (h : sensorError = true ∨ body = none ∨
      ∃ b, body = some b ∧ (b.success = false ∨ b.data = none)) :
    serveEvaluate sensorError body store now loc fid = (store, noDataResponse) ∧
    noDataResponse.success = true ∧
    noDataResponse.message = some "No sensor data available" ∧
    noDataResponse.alert = none ∧
    noDataResponse.created = false ∧
    noDataResponse.updated = false ∧
    noDataResponse.errorMsg = none := by
  refine ⟨?_, rfl, rfl, rfl, rfl, rfl, rfl⟩
  rcases h with h | h | ⟨b, rfl, hb | hb⟩
  · simp [serveEvaluate, h]
  · simp [serveEvaluate, h]
  · simp [serveEvaluate, hb]
  · simp [serveEvaluate, hb]

/-- Witness for C8: a failed telemetry invocation leaves the store as
it was and yields the soft no-data success response. -/
theorem serveEvaluate_no_data_witness :
    (true = true ∨ (none : Option TelemetryBody) = none ∨
      ∃ b, (none : Option TelemetryBody) = some b ∧
        (b.success = false ∨ b.data = none)) ∧
    serveEvaluate true none staleStore 4000000 "loc1" "a2"
      = (staleStore, noDataResponse) :=
  ⟨Or.inl rfl,
   (serveEvaluate_no_data true none staleStore 4000000 "loc1" "a2"
       (Or.inl rfl)).1⟩

end FireProtector
